import Mathlib

/-!
Verification development for the Career Catalyst resume–job matching
platform.  The definitions below are shallow embeddings of the
repository's code:

* `parseIntJS`, `uploadAnalysisReport` — backend-node
  `controllers/individualController.js` (`uploadAnalysisReport`, which
  stores `parseInt(req.body.analysisResumeScore, 10) || 0`).
* `matchLE`, `sortMatches`, `handleTopNChange`, `sanitizeField`,
  `downloadCSV`, … — frontend `pages/institution/Jobs.tsx`.
* `parseAnalysisSections`, `sectionOrder`, `renderedSections` —
  frontend `pages/individualDashboard.tsx`.
* `registerIndividual` — backend-node registration controller.
* The scoring engine (`normalize_text`, `keyword_score`,
  `similarity_score`, `experience_score`, `score_match`) lives in the
  repository's Flask backend, whose sources are not part of this
  snapshot; those definitions are modelled from the specification and
  are marked as such in their doc comments.

Machine numbers are modelled as `ℚ` (JS numbers in the relevant code
paths are exact small decimals), JS `parseInt` failures (`NaN`) as
`Option`, and fallible operations as `Except`.
-/

namespace CareerCatalyst

/-! ### JS primitives -/

/-- Leading decimal digits of a character list, as a number.
`none` when the list does not start with a digit (JS `NaN`). -/
def leadingNat (cs : List Char) : Option Nat :=
  let ds := cs.takeWhile (fun c => '0' ≤ c && c ≤ '9')
  if ds.isEmpty then none
  else some (ds.foldl (fun a c => 10 * a + (c.toNat - 48)) 0)

/-- Model of JS `parseInt(s, 10)`: skip leading whitespace, optional
sign, then leading decimal digits; `none` models `NaN`. -/
def parseIntJS (s : String) : Option Int :=
  let cs := s.data.dropWhile Char.isWhitespace
  match cs with
  | '-' :: rest => (leadingNat rest).map (fun n => -(n : Int))
  | '+' :: rest => (leadingNat rest).map (fun n => (n : Int))
  | _ => (leadingNat cs).map (fun n => (n : Int))

/-- Model of the JS expression `parseInt(field, 10) || 0` applied to an
optional form field: a missing field or a parse failure (`NaN`) and a
parsed `0` all collapse to `0`. -/
def parseIntOrZero (field : Option String) : Int :=
  (field.bind parseIntJS).getD 0

/-! ### `uploadAnalysisReport` (individualController.js) -/

/-- The per-user analysis fields updated by `uploadAnalysisReport`. -/
structure AnalysisUser where
  analysisResumeScore : Int
  analysisAtsScore : Int
  deriving DecidableEq, Repr

/-- Embedding of the score-storing step of `uploadAnalysisReport`:
`user.analysisResumeScore = parseInt(req.body.analysisResumeScore, 10) || 0`
and likewise for the ATS score. -/
def uploadAnalysisReport (resumeField atsField : Option String)
    (u : AnalysisUser) : AnalysisUser :=
  { u with
    analysisResumeScore := parseIntOrZero resumeField
    analysisAtsScore := parseIntOrZero atsField }

/-! ### Institution jobs page (Jobs.tsx) -/

/-- Student record as used by the matches table and CSV export. -/
structure Student where
  name : String
  email : String
  department : String
  year : Nat
  deriving DecidableEq, Repr

/-- `ResumeMatch` exactly as the frontend receives it: note that it
carries only `match_score`, no experience sub-score. -/
structure ResumeMatch where
  student_id : String
  job_id : String
  match_score : ℚ
  student : Student
  deriving DecidableEq, Repr

/-- The sort-order toggle of the matches table. -/
inductive SortOrder where
  | asc
  | desc
  deriving DecidableEq, Repr

/-- The total preorder realised by the JS comparator
`(a, b) => order === 'desc' ? b.match_score - a.match_score
                            : a.match_score - b.match_score`:
`a` may stay before `b` exactly when the comparator is `≤ 0`. -/
def matchLE : SortOrder → ResumeMatch → ResumeMatch → Prop
  | .asc, a, b => a.match_score ≤ b.match_score
  | .desc, a, b => b.match_score ≤ a.match_score

instance matchLE.decidableRel (o : SortOrder) : DecidableRel (matchLE o) :=
  fun a b =>
    match o with
    | .asc => inferInstanceAs (Decidable (a.match_score ≤ b.match_score))
    | .desc => inferInstanceAs (Decidable (b.match_score ≤ a.match_score))

instance matchLE.isTotal (o : SortOrder) : IsTotal ResumeMatch (matchLE o) :=
  ⟨fun a b => by cases o <;> exact le_total _ _⟩

instance matchLE.isTrans (o : SortOrder) : IsTrans ResumeMatch (matchLE o) :=
  ⟨fun a b c hab hbc => by
    cases o
    · exact le_trans hab hbc
    · exact le_trans hbc hab⟩

/-- Embedding of `matches.sort(comparator)`: JS `Array.prototype.sort`
is stable, and a stable sort for the total preorder `matchLE o` is
exactly insertion sort. -/
def sortMatches (o : SortOrder) (ms : List ResumeMatch) : List ResumeMatch :=
  List.insertionSort (matchLE o) ms

/-- `handleTopNChange`: the converted input value (`none` models `NaN`)
replaces `topN` only when it is `≥ 1`. -/
def handleTopNChange (topN : ℚ) (value : Option ℚ) : ℚ :=
  match value with
  | none => topN
  | some v => if 1 ≤ v then v else topN

/-- The `topN` state after a sequence of input events, starting from
the initial `useState(10)`. -/
def topNAfter (inputs : List (Option ℚ)) : ℚ :=
  inputs.foldl handleTopNChange 10

/-- JS `ToIntegerOrInfinity` truncation (toward zero) of a number. -/
def jsTrunc (q : ℚ) : Int :=
  if 0 ≤ q then ⌊q⌋ else -⌊-q⌋

/-- Embedding of `l.slice(0, q)`: a nonnegative end index truncates
toward zero and is clamped to the length; a negative one counts from
the end.  `slice` never mutates its receiver, hence a pure function. -/
def topNSlice {α : Type} (q : ℚ) (l : List α) : List α :=
  let k := jsTrunc q
  if k < 0 then l.take (l.length - (-k).toNat) else l.take k.toNat

/-- `sanitizeField`: en dashes become hyphens, quotes are doubled, and
the result is wrapped in quotes when it contains a comma, newline or
quote. -/
def sanitizeField (s : String) : String :=
  let sanitized : List Char :=
    s.data.foldr
      (fun c acc =>
        if c = '–' then '-' :: acc
        else if c = '"' then '"' :: '"' :: acc
        else c :: acc) []
  let needsQuote := sanitized.any (fun c => c = ',' || c = '\n' || c = '"')
  if needsQuote then "\"" ++ String.mk sanitized ++ "\""
  else String.mk sanitized

/-- One CSV data row of `downloadCSV`. -/
def csvRow (m : ResumeMatch) : String :=
  String.intercalate ","
    [sanitizeField m.student.name,
     sanitizeField m.student.email,
     sanitizeField m.student.department,
     toString m.student.year,
     toString (round m.match_score)]

/-- The CSV header row of `downloadCSV`. -/
def csvHeader : String :=
  String.intercalate ","
    (["Student Name", "Email", "Department", "Year", "Match Score"].map
      sanitizeField)

/-- The component state touched by the matches panel. -/
structure JobsState where
  «matches» : List ResumeMatch
  sortOrder : SortOrder
  topN : ℚ
  deriving DecidableEq, Repr

/-- `downloadCSV` builds the header plus one row per element of
`matches.slice(0, topN)`; it calls no state setter, so the state is
returned unchanged. -/
def downloadCSV (s : JobsState) : List String × JobsState :=
  (csvHeader :: (topNSlice s.topN s.«matches»).map csvRow, s)

/-- `handleSortChange`: stores the new order and re-sorts the current
`matches` array with the corresponding comparator. -/
def handleSortChange (o : SortOrder) (s : JobsState) : JobsState :=
  { s with sortOrder := o, «matches» := sortMatches o s.«matches» }

/-- `fetchMatches`: the fetched pool is sorted with the current
`sortOrder` comparator and stored. -/
def fetchMatches (data : List ResumeMatch) (s : JobsState) : JobsState :=
  { s with «matches» := sortMatches s.sortOrder data }

/-! ### `parseAnalysisSections` (individualDashboard.tsx)

The regex `/##\s*([^\n]+)\n([\s\S]*?)(?=(##\s*[\w\s]+)|$)/g` cuts the
analysis text at `##` headings; each match stores the trimmed heading
text and the trimmed block below it into the `sections` object (later
duplicate headings overwrite earlier ones, keeping the original
position, exactly as JS object assignment does).  The embedding below
works line by line, which agrees with the regex on heading-structured
text (one `##` heading per line followed by content lines, the shape
produced by the analysis backend and used in all theorems here). -/

/-- Split a character list at newlines (the line structure of the
analysis text). -/
def splitLines : List Char → List (List Char)
  | [] => [[]]
  | c :: rest =>
    match splitLines rest with
    | [] => [[]]
    | l :: ls => if c = '\n' then [] :: l :: ls else (c :: l) :: ls

/-- JS `String.prototype.trim` on a character list. -/
def trimChars (cs : List Char) : List Char :=
  ((cs.dropWhile Char.isWhitespace).reverse.dropWhile Char.isWhitespace).reverse

/-- A line that opens a new section: it starts with `##` and carries a
nonempty heading. -/
def isHeadingLine (l : List Char) : Bool :=
  match l with
  | '#' :: '#' :: rest => !(trimChars rest).isEmpty
  | _ => false

/-- JS object assignment `sections[k] = v`: overwrite in place if the
key exists, otherwise append. -/
def insertSection (m : List (String × String)) (k v : String) :
    List (String × String) :=
  match m with
  | [] => [(k, v)]
  | (k', v') :: rest =>
    if k' = k then (k, v) :: rest else (k', v') :: insertSection rest k v

/-- Close the currently open section (heading plus reversed content
lines) into the sections map. -/
def closeSection (m : List (String × String)) :
    Option (String × List (List Char)) → List (String × String)
  | none => m
  | some (t, revLines) =>
    insertSection m t
      (String.mk (trimChars (List.intercalate ['\n'] revLines.reverse)))

/-- One line of the scan: a heading line closes the open section and
opens a new one; any other line extends the open section (text before
the first heading is not captured by the regex and is dropped). -/
def sectionStep
    (st : List (String × String) × Option (String × List (List Char)))
    (l : List Char) :
    List (String × String) × Option (String × List (List Char)) :=
  if isHeadingLine l then
    (closeSection st.1 st.2, some (String.mk (trimChars (l.drop 2)), []))
  else
    match st.2 with
    | none => st
    | some (t, rev) => (st.1, some (t, l :: rev))

/-- `parseAnalysisSections`: the mapping from heading text to trimmed
content block. -/
def parseAnalysisSections (analysis : String) : List (String × String) :=
  let st := (splitLines analysis.data).foldl sectionStep ([], none)
  closeSection st.1 st.2

/-- `sections[title]` lookup. -/
def lookupSection (m : List (String × String)) (t : String) : Option String :=
  match m with
  | [] => none
  | (k, v) :: rest => if k = t then some v else lookupSection rest t

/-- The fixed `sectionOrder` list the report renderer iterates over. -/
def sectionOrder : List String :=
  ["Overall Assessment",
   "Professional Profile Analysis",
   "Skills Analysis",
   "Experience Analysis",
   "Education Analysis",
   "ATS Optimization Assessment",
   "Recommended Courses/Certifications",
   "Role Alignment Analysis",
   "Job Match Analysis",
   "Key Job Requirements Not Met"]

/-- The section titles the detailed report actually renders:
`sectionOrder.forEach(section => { if (sections[section]) ... })`. -/
def renderedSections (m : List (String × String)) : List String :=
  sectionOrder.filter (fun t => (lookupSection m t).isSome)

/-! ### `registerIndividual` (individualController.js + routes) -/

/-- The multer-provided upload as the controller sees it. -/
structure FileUpload where
  bufferLen : Nat
  mimetype : String
  size : Nat
  deriving DecidableEq, Repr

/-- The text fields of the registration body; `none` is an absent
field.  JS truthiness makes the empty string falsy as well. -/
structure RegisterBody where
  name : Option String
  email : Option String
  password : Option String
  college : Option String
  year : Option String
  department : Option String
  deriving DecidableEq, Repr

/-- JS truthiness of an optional string field. -/
def fieldPresent : Option String → Bool
  | none => false
  | some s => !(s == "")

/-- `if (!name || !email || !password || !college || !year || !department)`. -/
def fieldsPresent (b : RegisterBody) : Bool :=
  fieldPresent b.name && fieldPresent b.email && fieldPresent b.password &&
    fieldPresent b.college && fieldPresent b.year && fieldPresent b.department

/-- The persistent state the controller consults: registered user
emails and valid institution ids. -/
structure RegisterDb where
  users : List String
  institutions : List String
  deriving DecidableEq, Repr

/-- Embedding of `registerIndividual`, parametrised by the outcome of
the external Cloudinary upload.  Returns the HTTP status and the
database after the request.  The checks appear in source order. -/
def registerIndividual (b : RegisterBody) (file : Option FileUpload)
    (db : RegisterDb) (uploadOk : Bool) : Nat × RegisterDb :=
  if !fieldsPresent b then (400, db)
  else if db.users.contains (b.email.getD "") then (400, db)
  else if !db.institutions.contains (b.college.getD "") then (400, db)
  else
    match file with
    | none => (400, db)
    | some f =>
      if f.bufferLen = 0 then (400, db)
      else if f.mimetype ≠ "application/pdf" then (400, db)
      else if f.size > 5 * 1024 * 1024 then (400, db)
      else if uploadOk then
        (201, { db with users := db.users ++ [b.email.getD ""] })
      else (500, db)

/-- The attached file fails one of the controller's file checks
(missing, empty buffer, wrong type, oversized). -/
def fileBad : Option FileUpload → Prop
  | none => True
  | some f =>
    f.bufferLen = 0 ∨ f.mimetype ≠ "application/pdf" ∨
      f.size > 5 * 1024 * 1024

instance : DecidablePred fileBad := fun file =>
  match file with
  | none => inferInstanceAs (Decidable True)
  | some f =>
    inferInstanceAs
      (Decidable (f.bufferLen = 0 ∨ f.mimetype ≠ "application/pdf" ∨
        f.size > 5 * 1024 * 1024))

/-- Some validation check of the registration endpoint fails. -/
def regFails (b : RegisterBody) (file : Option FileUpload)
    (db : RegisterDb) : Prop :=
  fieldsPresent b = false ∨
    db.users.contains (b.email.getD "") = true ∨
    db.institutions.contains (b.college.getD "") = false ∨
    fileBad file

instance (b : RegisterBody) (file : Option FileUpload) (db : RegisterDb) :
    Decidable (regFails b file db) := by
  unfold regFails; infer_instance

/-! ### The matching engine

The Flask backend implementing the Resume–Job Matching & Scoring
Engine is not part of this source snapshot (only its callers are), so
the engine is modelled from the specification, component by component,
as stated in each doc comment. -/

/-- ASCII lower-casing of one character. -/
def lowerChar (c : Char) : Char :=
  if 'A' ≤ c ∧ c ≤ 'Z' then Char.ofNat (c.toNat + 32) else c

/-- Modelled from the spec: the case-insensitive skill taxonomy —
canonicalisation maps a skill string to its lower-cased form, so
`"Python"` and `"python"` denote the same canonical skill. -/
def canonSkill (s : String) : String :=
  String.mk (s.data.map lowerChar)

/-- The canonical skill set extracted from a list of skill strings. -/
def skillSet (skills : List String) : Finset String :=
  (skills.map canonSkill).toFinset

/-- Modelled from the spec (§4.5 Keyword Matcher, absent from the
snapshot): overlap of the canonical resume and job skill sets, with the
explicit policy that an empty job requirement set scores exactly 100. -/
def keyword_score (resumeSkills jobSkills : List String) : ℚ :=
  if skillSet jobSkills = ∅ then 100
  else
    100 * ((skillSet resumeSkills ∩ skillSet jobSkills).card : ℚ) /
      ((skillSet jobSkills).card : ℚ)

/-- The literal formula stated in the specification,
`100 × |resume ∩ job| / max(1, |job|)`, kept separately so it can be
compared with `keyword_score`. -/
def keywordFormula (resumeSkills jobSkills : List String) : ℚ :=
  100 * ((skillSet resumeSkills ∩ skillSet jobSkills).card : ℚ) /
    (max 1 ((skillSet jobSkills).card : ℚ))

/-- Modelled from the spec: an experience entry after extraction —
`years` is `none` when the entry's dates could not be parsed, and the
recency and role-relevance factors are the spec's per-entry weights. -/
structure ExperienceEntry where
  years : Option ℚ
  recency : ℚ
  relevance : ℚ
  deriving DecidableEq, Repr

/-- Weight of one entry: base duration × recency × relevance; entries
with unparseable dates contribute zero. -/
def entryWeight (e : ExperienceEntry) : ℚ :=
  (e.years.getD 0) * e.recency * e.relevance

/-- Modelled from the spec (§4.6 Experience Weigher, absent from the
snapshot): the weighted sum, scaled so that 8 weighted years saturate
at 100, clipped to [0,100]. -/
def experience_score (entries : List ExperienceEntry) : ℚ :=
  min 100 (max 0 ((entries.map entryWeight).sum * (100 / 8)))

/-- Dot product of two feature vectors (trailing coordinates of the
longer vector are ignored, as in a shared term space of equal length). -/
def dotQ (a b : List ℚ) : ℚ :=
  ((a.zip b).map (fun p => p.1 * p.2)).sum

/-- Sum of squared coordinates of a feature vector. -/
def sumSq (a : List ℚ) : ℚ :=
  (a.map (fun x => x * x)).sum

/-- Modelled from the spec (§4.4 Similarity Scorer, absent from the
snapshot): cosine similarity of the two vectors mapped linearly from
[-1,1] to [0,100]; if either vector is all-zero the similarity is 0,
not an error. -/
noncomputable def similarity_score (a b : List ℚ) : ℝ :=
  if sumSq a = 0 ∨ sumSq b = 0 then 0
  else
    50 * (1 + (dotQ a b : ℝ) /
      (Real.sqrt (sumSq a : ℝ) * Real.sqrt (sumSq b : ℝ)))

/-- Modelled from the spec: a resume document after extraction. -/
structure ResumeDocument where
  id : String
  skills : List String
  vec : List ℚ
  experience : List ExperienceEntry

/-- Modelled from the spec: a job posting after extraction. -/
structure JobPosting where
  id : String
  skills : List String
  vec : List ℚ

/-- `MatchResult` of one `(resume, job)` pair. -/
structure MatchResult where
  similarity_score : ℝ
  keyword_score : ℝ
  experience_score : ℝ
  match_score : ℝ

/-- Modelled from the spec (§4.8 Score Aggregator, absent from the
snapshot): `score_match` computes the three sub-scores and aggregates
them with the fixed weights 0.4/0.4/0.2. -/
noncomputable def score_match (R : ResumeDocument) (J : JobPosting) :
    MatchResult :=
  let s := similarity_score R.vec J.vec
  let k := ((keyword_score R.skills J.skills : ℚ) : ℝ)
  let e := ((experience_score R.experience : ℚ) : ℝ)
  { similarity_score := s
    keyword_score := k
    experience_score := e
    match_score := 0.4 * s + 0.4 * k + 0.2 * e }

/-- The engine's typed error kinds (spec §7). -/
inductive EngineError where
  | ExtractionEmpty
  | VocabularyMismatch
  deriving DecidableEq, Repr

/-- Collapse runs of spaces to single spaces and trim. -/
def collapseSpaces (cs : List Char) : List Char :=
  match cs with
  | [] => []
  | c :: rest =>
    let tail := collapseSpaces rest
    if c = ' ' then
      match tail with
      | [] => []
      | t :: _ => if t = ' ' then tail else ' ' :: tail
    else c :: tail

/-- Lower-case a character and reduce punctuation to a word boundary. -/
def normChar (c : Char) : Char :=
  let l := lowerChar c
  if ('a' ≤ l ∧ l ≤ 'z') ∨ ('0' ≤ l ∧ l ≤ '9') then l else ' '

/-- Modelled from the spec (§4.1 Text Normalizer, absent from the
snapshot): fails with `ExtractionEmpty` when the input is empty or
shorter than the 20-character minimum; otherwise lower-cases, reduces
punctuation to word boundaries and collapses whitespace. -/
def normalize_text (s : String) : Except EngineError String :=
  if s.length < 20 then .error .ExtractionEmpty
  else .ok (String.mk ((collapseSpaces (s.data.map normChar)).dropWhile
    (fun c => c = ' ')))

/-- The scoring path a caller sees: both texts are normalised and only
then scored, so a normaliser failure surfaces as the typed error and
never as a numeric score. -/
def scoreFromTexts (rawResume rawJob : String) : Except EngineError ℚ := do
  let r ← normalize_text rawResume
  let j ← normalize_text rawJob
  pure (keyword_score (r.splitOn " ") (j.splitOn " "))

/-- Two distinct matches with the same `match_score` (and no further
sort key available in the record), used in the tie-order analysis. -/
def tieMatchA : ResumeMatch :=
  ⟨"s2", "j1", 50, ⟨"Ann", "ann@college.edu", "Information Technology (IT)", 3⟩⟩

/-- See `tieMatchA`. -/
def tieMatchB : ResumeMatch :=
  ⟨"s1", "j1", 50, ⟨"Bob", "bob@college.edu", "Civil Engineering", 2⟩⟩

/-! ### Score bounds (Cauchy–Schwarz for the similarity scorer) -/

lemma sum_map_mul_self_nonneg {α : Type} (f : α → ℚ) (l : List α) :
    0 ≤ (l.map (fun x => f x * f x)).sum := by
  induction l with
  | nil => simp
  | cons x xs ih => simpa using add_nonneg (mul_self_nonneg (f x)) ih

lemma sumSq_nonneg (a : List ℚ) : 0 ≤ sumSq a :=
  sum_map_mul_self_nonneg id a

lemma pair_comb_sq_sum_nonneg (p : List (ℚ × ℚ)) (t : ℚ) :
    0 ≤ (p.map (fun q => (q.1 + t * q.2) * (q.1 + t * q.2))).sum := by
  induction p with
  | nil => simp
  | cons q p ih => simpa using add_nonneg (mul_self_nonneg (q.1 + t * q.2)) ih

lemma pair_comb_sq_sum_expand (p : List (ℚ × ℚ)) (t : ℚ) :
    (p.map (fun q => (q.1 + t * q.2) * (q.1 + t * q.2))).sum =
      (p.map (fun q => q.2 * q.2)).sum * (t * t) +
        (2 * (p.map (fun q => q.1 * q.2)).sum) * t +
        (p.map (fun q => q.1 * q.1)).sum := by
  induction p with
  | nil => simp
  | cons q p ih => simp only [List.map_cons, List.sum_cons, ih]; ring

lemma sq_le_of_quadratic_nonneg (sa sb d : ℚ)
    (hq : ∀ t : ℚ, 0 ≤ sb * (t * t) + (2 * d) * t + sa) : d ^ 2 ≤ sa * sb := by
  have h := discrim_le_zero (a := sb) (b := 2 * d) (c := sa) hq
  rw [discrim] at h
  nlinarith [h]

lemma pairs_cauchy_schwarz (p : List (ℚ × ℚ)) :
    ((p.map (fun q => q.1 * q.2)).sum) ^ 2 ≤
      (p.map (fun q => q.1 * q.1)).sum * (p.map (fun q => q.2 * q.2)).sum := by
  refine sq_le_of_quadratic_nonneg _ _ _ (fun t => ?_)
  rw [← pair_comb_sq_sum_expand p t]
  exact pair_comb_sq_sum_nonneg p t

lemma zip_fst_sq_le (a b : List ℚ) :
    ((a.zip b).map (fun q => q.1 * q.1)).sum ≤ sumSq a := by
  induction a generalizing b with
  | nil => simp [sumSq]
  | cons x xs ih =>
    cases b with
    | nil =>
      simpa [sumSq] using sum_map_mul_self_nonneg id (x :: xs)
    | cons y ys =>
      simp only [List.zip_cons_cons, List.map_cons, List.sum_cons, sumSq]
      exact add_le_add_left (ih ys) _

lemma zip_snd_sq_le (a b : List ℚ) :
    ((a.zip b).map (fun q => q.2 * q.2)).sum ≤ sumSq b := by
  induction a generalizing b with
  | nil => simpa [sumSq] using sum_map_mul_self_nonneg id b
  | cons x xs ih =>
    cases b with
    | nil => simp [sumSq]
    | cons y ys =>
      simp only [List.zip_cons_cons, List.map_cons, List.sum_cons, sumSq]
      exact add_le_add_left (ih ys) _

lemma dotQ_sq_le (a b : List ℚ) : dotQ a b ^ 2 ≤ sumSq a * sumSq b := by
  refine le_trans (pairs_cauchy_schwarz (a.zip b)) ?_
  have h2 : 0 ≤ ((a.zip b).map (fun q => q.2 * q.2)).sum :=
    sum_map_mul_self_nonneg Prod.snd (a.zip b)
  exact mul_le_mul (zip_fst_sq_le a b) (zip_snd_sq_le a b) h2 (sumSq_nonneg a)

lemma abs_dotQ_le (a b : List ℚ) :
    |((dotQ a b : ℚ) : ℝ)| ≤
      Real.sqrt ((sumSq a : ℚ) : ℝ) * Real.sqrt ((sumSq b : ℚ) : ℝ) := by
  have h : (((dotQ a b : ℚ) : ℝ)) ^ 2 ≤
      ((sumSq a : ℚ) : ℝ) * ((sumSq b : ℚ) : ℝ) := by
    exact_mod_cast dotQ_sq_le a b
  calc |((dotQ a b : ℚ) : ℝ)|
      = Real.sqrt ((((dotQ a b : ℚ) : ℝ)) ^ 2) := (Real.sqrt_sq_eq_abs _).symm
    _ ≤ Real.sqrt (((sumSq a : ℚ) : ℝ) * ((sumSq b : ℚ) : ℝ)) :=
        Real.sqrt_le_sqrt h
    _ = Real.sqrt ((sumSq a : ℚ) : ℝ) * Real.sqrt ((sumSq b : ℚ) : ℝ) :=
        Real.sqrt_mul (by exact_mod_cast sumSq_nonneg a) _

lemma similarity_score_bounds (a b : List ℚ) :
    0 ≤ similarity_score a b ∧ similarity_score a b ≤ 100 := by
  unfold similarity_score
  split
  · norm_num
  · rename_i h
    push_neg at h
    have ha : (0 : ℝ) < ((sumSq a : ℚ) : ℝ) := by
      have := sumSq_nonneg a
      have hne : sumSq a ≠ 0 := h.1
      exact_mod_cast lt_of_le_of_ne this (Ne.symm hne)
    have hb : (0 : ℝ) < ((sumSq b : ℚ) : ℝ) := by
      have := sumSq_nonneg b
      have hne : sumSq b ≠ 0 := h.2
      exact_mod_cast lt_of_le_of_ne this (Ne.symm hne)
    have hden : 0 < Real.sqrt ((sumSq a : ℚ) : ℝ) *
        Real.sqrt ((sumSq b : ℚ) : ℝ) :=
      mul_pos (Real.sqrt_pos.2 ha) (Real.sqrt_pos.2 hb)
    have habs : |((dotQ a b : ℚ) : ℝ) /
        (Real.sqrt ((sumSq a : ℚ) : ℝ) * Real.sqrt ((sumSq b : ℚ) : ℝ))| ≤ 1 := by
      rw [abs_div, abs_of_pos hden]
      exact (div_le_one hden).2 (abs_dotQ_le a b)
    have hc := abs_le.1 habs
    constructor <;> nlinarith [hc.1, hc.2]

lemma keyword_score_bounds (r j : List String) :
    0 ≤ keyword_score r j ∧ keyword_score r j ≤ 100 := by
  unfold keyword_score
  split
  · norm_num
  · rename_i h
    have hpos : 0 < ((skillSet j).card : ℚ) := by
      have : 0 < (skillSet j).card :=
        Finset.card_pos.2 (Finset.nonempty_iff_ne_empty.2 h)
      exact_mod_cast this
    have hle : ((skillSet r ∩ skillSet j).card : ℚ) ≤ ((skillSet j).card : ℚ) := by
      exact_mod_cast Finset.card_le_card (Finset.inter_subset_right)
    have hnn : (0 : ℚ) ≤ ((skillSet r ∩ skillSet j).card : ℚ) := by positivity
    constructor
    · positivity
    · rw [div_le_iff₀ hpos]; nlinarith

lemma experience_score_bounds (es : List ExperienceEntry) :
    0 ≤ experience_score es ∧ experience_score es ≤ 100 :=
  ⟨le_min (by norm_num) (le_max_left _ _), min_le_left _ _⟩

/-! ## Claim C1 -/

/-- Claim C1, counterexample: `uploadAnalysisReport` stores the numeric
default 0 when the submitted score field does not parse as a number
(`parseInt` yields `NaN`), so a failed score computation is stored
indistinguishably from a computed score of 0 — refuting the claim that
such a failure is never converted into the numeric default 0. -/
theorem uploadAnalysisReport_defaults_failed_score_to_zero :
    parseIntJS "unscorable" = none ∧
      (uploadAnalysisReport (some "unscorable") (some "unscorable")
          ⟨55, 60⟩).analysisResumeScore = 0 ∧
      (uploadAnalysisReport (some "0") (some "0")
          ⟨55, 60⟩).analysisResumeScore = 0 := by
  refine ⟨by decide, by decide, by decide⟩

/-- Claim C1, amended: the stored analysis scores equal
`parseInt(field, 10) || 0`, so a stored score of 0 arises exactly when
the field is missing or non-numeric (`parseInt` = `NaN`) or when the
computation actually produced 0 — the two cases are not
distinguishable from the stored value. -/
theorem uploadAnalysisReport_zero_iff_unparsed_or_zero
    (rf af : Option String) (u : AnalysisUser) :
    ((uploadAnalysisReport rf af u).analysisResumeScore = 0 ↔
      rf.bind parseIntJS = none ∨ rf.bind parseIntJS = some 0) ∧
    ((uploadAnalysisReport rf af u).analysisAtsScore = 0 ↔
      af.bind parseIntJS = none ∨ af.bind parseIntJS = some 0) := by
  constructor <;>
  · simp only [uploadAnalysisReport, parseIntOrZero]
    rcases h : (Option.bind _ parseIntJS) with _ | n <;> simp [h]

/-! ## Claim C2 -/

/-- Claim C2, counterexample: the frontend sorts matches only by
`match_score`; two distinct tied matches keep their incoming order, so
the two arrangements of the same two-element pool produce different
rankings — there is no experience-score or identifier tie-break and the
produced order is not determined by the elements alone. -/
theorem sortMatches_tie_order_depends_on_input_order :
    tieMatchA.match_score = tieMatchB.match_score ∧
      tieMatchA ≠ tieMatchB ∧
      sortMatches .desc [tieMatchA, tieMatchB] = [tieMatchA, tieMatchB] ∧
      sortMatches .desc [tieMatchB, tieMatchA] = [tieMatchB, tieMatchA] := by
  refine ⟨by decide, by decide, by decide, by decide⟩

/-- Claim C2, amended: `fetchMatches`/`handleSortChange` sort the pool
by `match_score` alone in the selected direction (a permutation of the
input, sorted for the comparator's total preorder); tied entries are
left in their incoming order by the stable sort, with no secondary
key. -/
theorem sortMatches_sorts_by_match_score_only
    (o : SortOrder) (ms : List ResumeMatch) :
    (sortMatches o ms).Sorted (matchLE o) ∧
      List.Perm (sortMatches o ms) ms :=
  ⟨List.sorted_insertionSort (matchLE o) ms,
    List.perm_insertionSort (matchLE o) ms⟩

/-! ## Claim C3 -/

/-- Claim C3, counterexample: with an empty job requirement set the
engine's keyword score is 100 by the spec's explicit empty-set policy,
while the claimed formula `100 × |r ∩ j| / max(1, |j|)` evaluates to 0,
so `keyword_score` does not equal the formula on every input. -/
theorem keyword_score_empty_jobset_breaks_formula :
    keyword_score ["python"] [] = 100 ∧ keywordFormula ["python"] [] = 0 ∧
      (100 : ℚ) ≠ 0 := by
  refine ⟨rfl, ?_, by norm_num⟩
  have h1 : (skillSet ["python"] ∩ skillSet []).card = 0 := by decide
  have h2 : (skillSet ([] : List String)).card = 0 := by decide
  rw [keywordFormula, h1, h2]
  norm_num

/-- Claim C3, amended: `keyword_score` agrees with the formula
`100 × |resume ∩ job| / max(1, |job|)` whenever the job skill set is
nonempty, is exactly 100 on an empty job skill set, and on the
case-insensitive scenario {Python, SQL} vs {python, sql, spark} equals
100 × 2/3. -/
theorem keyword_score_spec :
    (∀ r j : List String, skillSet j ≠ ∅ →
        keyword_score r j = keywordFormula r j) ∧
      (∀ r j : List String, skillSet j = ∅ → keyword_score r j = 100) ∧
      keyword_score ["Python", "SQL"] ["python", "sql", "spark"] = 200 / 3 := by
  refine ⟨fun r j hj => ?_, fun r j hj => ?_, ?_⟩
  · have hpos : 0 < (skillSet j).card :=
      Finset.card_pos.2 (Finset.nonempty_iff_ne_empty.2 hj)
    have hmax : max 1 ((skillSet j).card : ℚ) = ((skillSet j).card : ℚ) := by
      have : (1 : ℚ) ≤ ((skillSet j).card : ℚ) := by exact_mod_cast hpos
      exact max_eq_right this
    rw [keyword_score, if_neg hj, keywordFormula, hmax]
  · rw [keyword_score, if_pos hj]
  · have h1 : (skillSet ["Python", "SQL"] ∩
        skillSet ["python", "sql", "spark"]).card = 2 := by decide
    have h2 : (skillSet ["python", "sql", "spark"]).card = 3 := by decide
    have h3 : ¬ skillSet ["python", "sql", "spark"] = ∅ := by decide
    rw [keyword_score, if_neg h3, h1, h2]
    norm_num

/-- Claim C3, witness for `keyword_score_spec`. -/
theorem keyword_score_spec_witness :
    (skillSet ["python"] ≠ ∅ ∧
        keyword_score ["java"] ["python"] = keywordFormula ["java"] ["python"]) ∧
      (skillSet ([] : List String) = ∅ ∧
        keyword_score ["java"] [] = 100) :=
  ⟨⟨by decide, keyword_score_spec.1 ["java"] ["python"] (by decide)⟩,
    ⟨by decide, keyword_score_spec.2.1 ["java"] [] (by decide)⟩⟩

/-! ## Claim C4 -/

/-- Claim C4: for every resume and job, `score_match` returns a
`match_score` in [0, 100], and each sub-score (`similarity_score`,
`keyword_score`, `experience_score`) also lies in [0, 100]. -/
theorem score_match_scores_in_range (R : ResumeDocument) (J : JobPosting) :
    (0 ≤ (score_match R J).similarity_score ∧
        (score_match R J).similarity_score ≤ 100) ∧
      (0 ≤ (score_match R J).keyword_score ∧
        (score_match R J).keyword_score ≤ 100) ∧
      (0 ≤ (score_match R J).experience_score ∧
        (score_match R J).experience_score ≤ 100) ∧
      (0 ≤ (score_match R J).match_score ∧
        (score_match R J).match_score ≤ 100) := by
  obtain ⟨hs0, hs1⟩ := similarity_score_bounds R.vec J.vec
  obtain ⟨hk0, hk1⟩ := keyword_score_bounds R.skills J.skills
  obtain ⟨he0, he1⟩ := experience_score_bounds R.experience
  have hk0' : (0 : ℝ) ≤ ((keyword_score R.skills J.skills : ℚ) : ℝ) := by
    exact_mod_cast hk0
  have hk1' : ((keyword_score R.skills J.skills : ℚ) : ℝ) ≤ 100 := by
    exact_mod_cast hk1
  have he0' : (0 : ℝ) ≤ ((experience_score R.experience : ℚ) : ℝ) := by
    exact_mod_cast he0
  have he1' : ((experience_score R.experience : ℚ) : ℝ) ≤ 100 := by
    exact_mod_cast he1
  simp only [score_match]
  refine ⟨⟨hs0, hs1⟩, ⟨hk0', hk1'⟩, ⟨he0', he1'⟩, ⟨?_, ?_⟩⟩ <;> nlinarith

/-! ## Claim C5 -/

/-- Claim C5: `score_match` is a pure function of its inputs, so two
calls on unchanged inputs yield identical sub-scores and aggregate; and
ranking is stable under repetition — re-sorting an already ranked pool
with the same comparator reproduces exactly the same list, including
the order among tied entries. -/
theorem score_match_deterministic_and_ranking_stable
    (R : ResumeDocument) (J : JobPosting) (o : SortOrder)
    (ms : List ResumeMatch) :
    score_match R J = score_match R J ∧
      sortMatches o (sortMatches o ms) = sortMatches o ms :=
  ⟨rfl, List.Sorted.insertionSort_eq (List.sorted_insertionSort (matchLE o) ms)⟩

/-! ## Claim C6 -/

lemma topNSlice_is_take {α : Type} (q : ℚ) (l : List α) :
    ∃ n, topNSlice q l = l.take n := by
  unfold topNSlice
  by_cases h : jsTrunc q < 0
  · exact ⟨l.length - (-(jsTrunc q)).toNat, by simp [h]⟩
  · exact ⟨(jsTrunc q).toNat, by simp [h]⟩

/-- Claim C6: top-N selection for the matches table and the CSV export
is a pure slice: `downloadCSV` leaves the component state (and hence
the full match list, with every element in its original order)
unchanged, and its rows are built from a prefix of the pool, which can
be recombined with the remaining suffix to recover the pool exactly. -/
theorem downloadCSV_leaves_pool_unchanged (s : JobsState) :
    (downloadCSV s).2 = s ∧
      (downloadCSV s).1 =
        csvHeader :: (topNSlice s.topN s.«matches»).map csvRow ∧
      ∃ rest, s.«matches» = topNSlice s.topN s.«matches» ++ rest := by
  refine ⟨rfl, rfl, ?_⟩
  obtain ⟨n, hn⟩ := topNSlice_is_take s.topN s.«matches»
  exact ⟨s.«matches».drop n, by rw [hn, List.take_append_drop]⟩

/-! ## Claim C7 -/

/-- Claim C7: the text normaliser fails with the typed error
`ExtractionEmpty` on every input shorter than the 20-character minimum
(in particular on the empty string), and in that case the scoring
pipeline yields the typed error, never a numeric score. -/
theorem normalize_text_short_input_is_typed_error (s j : String)
    (h : s.length < 20) :
    normalize_text s = .error .ExtractionEmpty ∧
      scoreFromTexts s j = .error .ExtractionEmpty := by
  have h1 : normalize_text s = .error .ExtractionEmpty := by
    unfold normalize_text
    rw [if_pos h]
  refine ⟨h1, ?_⟩
  unfold scoreFromTexts
  rw [h1]
  rfl

/-- Claim C7, witness for `normalize_text_short_input_is_typed_error`. -/
theorem normalize_text_short_input_is_typed_error_witness :
    ("resume".length < 20) ∧
      (normalize_text "resume" = .error .ExtractionEmpty ∧
        scoreFromTexts "resume" "some job text" = .error .ExtractionEmpty) :=
  ⟨by decide,
    normalize_text_short_input_is_typed_error "resume" "some job text"
      (by decide)⟩

/-! ## Claim C8 -/

/-- Claim C8, counterexample: an unknown heading's content is stored
under the heading's own text — there is no "uncategorized" bucket in
the parser output (neither spelling is a key) — and the report renderer
emits only the fixed section names, so the unknown heading's content is
dropped from the rendered report rather than re-bucketed. -/
theorem parseAnalysisSections_has_no_uncategorized_bucket :
    parseAnalysisSections
        "## Skills Analysis\ngood stuff\n## Weird Custom Heading\nhidden content" =
      [("Skills Analysis", "good stuff"),
        ("Weird Custom Heading", "hidden content")] ∧
      lookupSection
        (parseAnalysisSections
          "## Skills Analysis\ngood stuff\n## Weird Custom Heading\nhidden content")
        "Uncategorized" = none ∧
      lookupSection
        (parseAnalysisSections
          "## Skills Analysis\ngood stuff\n## Weird Custom Heading\nhidden content")
        "uncategorized" = none ∧
      "Weird Custom Heading" ∉ sectionOrder ∧
      renderedSections
        (parseAnalysisSections
          "## Skills Analysis\ngood stuff\n## Weird Custom Heading\nhidden content") =
        ["Skills Analysis"] :=
  ⟨by decide, by decide, by decide, by decide, by decide⟩

/-- Claim C8, amended: the parser keys every heading — known or unknown
— by its own trimmed text, so unknown-heading content is retained in
the parser output but under its heading, not under any "uncategorized"
bucket; the renderer only ever emits titles from the fixed enumerated
`sectionOrder`, so unknown-heading content never reaches the rendered
report. -/
theorem parseAnalysisSections_renders_only_fixed_sections :
    (∀ m t, t ∈ renderedSections m → t ∈ sectionOrder) ∧
      parseAnalysisSections "## Alpha Beta\npayload" =
        [("Alpha Beta", "payload")] ∧
      lookupSection (parseAnalysisSections "## Alpha Beta\npayload")
        "Uncategorized" = none := by
  refine ⟨fun m t ht => ?_, by decide, by decide⟩
  unfold renderedSections at ht
  exact List.mem_of_mem_filter ht

/-- Claim C8, witness for `parseAnalysisSections_renders_only_fixed_sections`. -/
theorem parseAnalysisSections_renders_only_fixed_sections_witness :
    "Overall Assessment" ∈ sectionOrder :=
  parseAnalysisSections_renders_only_fixed_sections.1
    [("Overall Assessment", "text")] "Overall Assessment" (by decide)

/-! ## Claim C9 -/

/-- Claim C9: registration is atomic with respect to validation — on
any failing check (missing field, taken email, invalid college id,
missing file, empty buffer, non-PDF type, or size over 5 MB) the
controller responds 400 and the stored data is unchanged; conversely
the user list changes only on a request that passes every check (and a
successful upload), which is answered 201. -/
theorem registerIndividual_validates_atomically (b : RegisterBody)
    (file : Option FileUpload) (db : RegisterDb) (uploadOk : Bool) :
    (regFails b file db →
        registerIndividual b file db uploadOk = (400, db)) ∧
      ((registerIndividual b file db uploadOk).2 ≠ db →
        ¬ regFails b file db ∧
          (registerIndividual b file db uploadOk).1 = 201 ∧
          uploadOk = true) := by
  cases file with
  | none =>
    constructor
    · intro _
      simp only [registerIndividual]
      split_ifs <;> rfl
    · intro hne
      exfalso
      apply hne
      simp only [registerIndividual]
      split_ifs <;> rfl
  | some f =>
    constructor
    · intro hfail
      simp only [registerIndividual]
      split_ifs with h1 h2 h3 h4 h5 h6 h7 <;> try rfl
      all_goals exfalso
      all_goals
        rcases hfail with h | h | h | h
        · simp [h] at h1
        · exact h2 h
        · simp_all
        · rcases h with h | h | h
          · exact h4 h
          · exact h5 h
          · exact h6 h
    · intro hne
      simp only [registerIndividual] at hne ⊢
      split_ifs at hne ⊢ with h1 h2 h3 h4 h5 h6 h7 <;>
        try exact absurd rfl hne
      refine ⟨?_, rfl, h7⟩
      intro hfail
      rcases hfail with h | h | h | h
      · simp [h] at h1
      · exact h2 h
      · simp_all
      · rcases h with h | h | h
        · exact h4 h
        · exact h5 h
        · exact h6 h

/-- Claim C9, witness for `registerIndividual_validates_atomically`: a
request with a missing name (and no file) is rejected with 400 and
leaves the database unchanged. -/
theorem registerIndividual_validates_atomically_witness :
    regFails
        ⟨none, some "e@x.edu", some "pw", some "c1", some "2",
          some "Civil Engineering"⟩ none ⟨[], ["c1"]⟩ ∧
      registerIndividual
          ⟨none, some "e@x.edu", some "pw", some "c1", some "2",
            some "Civil Engineering"⟩ none ⟨[], ["c1"]⟩ true =
        (400, ⟨[], ["c1"]⟩) :=
  ⟨by decide,
    (registerIndividual_validates_atomically
        ⟨none, some "e@x.edu", some "pw", some "c1", some "2",
          some "Civil Engineering"⟩ none ⟨[], ["c1"]⟩ true).1 (by decide)⟩

/-! ## Claim C10 -/

lemma one_le_foldl_handleTopNChange (inputs : List (Option ℚ)) :
    ∀ t : ℚ, 1 ≤ t → 1 ≤ inputs.foldl handleTopNChange t := by
  induction inputs with
  | nil => intro t ht; simpa using ht
  | cons v rest ih =>
    intro t ht
    simp only [List.foldl_cons]
    apply ih
    cases v with
    | none => exact ht
    | some x =>
      simp only [handleTopNChange]
      split_ifs with h
      · exact h
      · exact ht

/-- Claim C10: starting from the initial value 10, and with the change
handler accepting a new value only when it is at least 1, the `topN`
used by the matches table and the CSV export is at least 1 after every
sequence of user inputs. -/
theorem topN_always_at_least_one (inputs : List (Option ℚ)) :
    1 ≤ topNAfter inputs :=
  one_le_foldl_handleTopNChange inputs 10 (by norm_num)

end CareerCatalyst
